import Mathlib

/-!
Shallow embedding of sniffnet's traffic-statistics aggregation and reporting
core: the `InfoAddressPortPair` traffic record (merge, unit projection,
comparator) and the report query pipeline (`get_searched_entries`,
`get_host_entries`, `get_service_entries`), together with proofs of the
specified properties.

Machine integers: Rust `u128` counters are modelled as `Nat` with results
reduced modulo `2 ^ 128` wherever the source performs 128-bit arithmetic
that could overflow.
-/

/-- Three-way comparison on `Nat`, mirroring Rust's `u128::cmp`. -/
def cmpNat (a b : Nat) : Ordering :=
  if a < b then Ordering.lt
  else if b < a then Ordering.gt
  else Ordering.eq

/-- Three-way comparison on `Int`, mirroring Rust's `i64::cmp`. -/
def cmpInt (a b : Int) : Ordering :=
  if a < b then Ordering.lt
  else if b < a then Ordering.gt
  else Ordering.eq

/-- Three-way comparison on `Option`, mirroring Rust's derived
`Option<T>::cmp`: `None` sorts below any `Some`. -/
def cmpOption (c : α → α → Ordering) (o₁ o₂ : Option α) : Ordering :=
  match o₁, o₂ with
  | some x, some y => c x y
  | some _, none => Ordering.gt
  | none, some _ => Ordering.lt
  | none, none => Ordering.eq

/-- Modelled from the spec: the repository's `Timestamp` type (used for
`initial_timestamp` / `final_timestamp`) is not among the provided sources;
it is a seconds/sub-seconds pair with the derived lexicographic total
order, constructed in the source's tests as `Timestamp::new(secs, usecs)`. -/
structure Timestamp where
  secs : Int
  usecs : Int
deriving DecidableEq, Inhabited, Repr

/-- Lexicographic three-way comparison on `Timestamp`, mirroring the
derived `Ord` instance of the Rust struct. -/
def cmpTimestamp (a b : Timestamp) : Ordering :=
  match cmpInt a.secs b.secs with
  | .eq => cmpInt a.usecs b.usecs
  | o => o

/-- Modelled from the spec: traffic direction, incoming vs. outgoing
relative to the monitored host. -/
inductive TrafficDirection where
  | Outgoing
  | Incoming
deriving DecidableEq, Inhabited, Repr

/-- Modelled from the spec: upper-layer service classification with a
sentinel "not applicable" variant. -/
inductive Service where
  | Name (s : String)
  | Unknown
  | NotApplicable
deriving DecidableEq, Inhabited, Repr

/-- ICMP message subtype (abstract identity). -/
abbrev IcmpType := Nat

/-- ARP operation subtype (abstract identity). -/
abbrev ArpType := Nat

/-- Sort key for the connection report, from `src/report/types/sort_by.rs`. -/
inductive SortBy where
  | Packets
  | Bytes
  | Latency
deriving DecidableEq, Inhabited, Repr

/-- Sort direction; its three variants are the ones matched on by
`InfoAddressPortPair::compare`. -/
inductive SortType where
  | Ascending
  | Descending
  | Neutral
deriving DecidableEq, Inhabited, Repr

/-- Data representation (unit) for reported volumes; its three variants are
the ones matched on by `InfoAddressPortPair::transmitted_data`. -/
inductive DataRepr where
  | Packets
  | Bytes
  | Bits
deriving DecidableEq, Inhabited, Repr

/-- Traffic record for one address:port pair, from
`src/networking/types/info_address_port_pair.rs`. The `u128` counters are
`Nat`s, the ICMP/ARP count maps are association lists (entry order models
the hash map's iteration order), and `latency : Option<i64>` is
`Option Int`. -/
structure InfoAddressPortPair where
  mac_address1 : Option String
  mac_address2 : Option String
  transmitted_bytes : Nat
  transmitted_packets : Nat
  initial_timestamp : Timestamp
  final_timestamp : Timestamp
  service : Service
  traffic_direction : TrafficDirection
  icmp_types : List (IcmpType × Nat)
  arp_types : List (ArpType × Nat)
  latency : Option Int
  syn_info : Option (Timestamp × TrafficDirection)
deriving DecidableEq, Inhabited, Repr

/-- One `entry(k).and_modify(|v| v += c).or_insert(c)` step on an
association-list count map. -/
def updateAdd : List (Nat × Nat) → Nat → Nat → List (Nat × Nat)
  | [], t, c => [(t, c)]
  | (t', c') :: rest, t, c =>
      if t' = t then (t', c' + c) :: rest else (t', c') :: updateAdd rest t c

/-- Fold of `updateAdd` over the incoming map's entries, mirroring the
`for (k, count) in &other.map` merge loops in `refresh`. -/
def mergeCounts (self other : List (Nat × Nat)) : List (Nat × Nat) :=
  other.foldl (fun acc tc => updateAdd acc tc.1 tc.2) self

/-- Embedding of `InfoAddressPortPair::refresh`: additive counters (128-bit
arithmetic), last-write-wins for `final_timestamp` / `service` /
`traffic_direction`, per-subtype summation for the count maps, and
preserve-if-absent for `latency` / `syn_info`. -/
def InfoAddressPortPair.refresh (self other : InfoAddressPortPair) : InfoAddressPortPair :=
  { self with
    transmitted_bytes := (self.transmitted_bytes + other.transmitted_bytes) % 2 ^ 128
    transmitted_packets := (self.transmitted_packets + other.transmitted_packets) % 2 ^ 128
    final_timestamp := other.final_timestamp
    service := other.service
    traffic_direction := other.traffic_direction
    icmp_types := mergeCounts self.icmp_types other.icmp_types
    arp_types := mergeCounts self.arp_types other.arp_types
    latency := if other.latency.isSome then other.latency else self.latency
    syn_info := if other.syn_info.isSome then other.syn_info else self.syn_info }

/-- Embedding of `InfoAddressPortPair::transmitted_data`: projects the
counters into packets, bytes, or bits (bytes times 8 in `u128`
arithmetic). -/
def InfoAddressPortPair.transmitted_data (self : InfoAddressPortPair) (data_repr : DataRepr) : Nat :=
  match data_repr with
  | .Packets => self.transmitted_packets
  | .Bytes => self.transmitted_bytes
  | .Bits => self.transmitted_bytes * 8 % 2 ^ 128

/-- Embedding of `InfoAddressPortPair::compare`: Ascending/Descending
compare the field selected by `sort_by` (operands swapped for Descending),
Neutral ignores `sort_by` and compares the final timestamps with operands
swapped; the `_data_repr` argument is unused. -/
def InfoAddressPortPair.compare (self other : InfoAddressPortPair)
    (sort_by : SortBy) (sort_type : SortType) (_data_repr : DataRepr) : Ordering :=
  match sort_type with
  | .Ascending =>
    match sort_by with
    | .Packets => cmpNat self.transmitted_packets other.transmitted_packets
    | .Bytes => cmpNat self.transmitted_bytes other.transmitted_bytes
    | .Latency => cmpOption cmpInt self.latency other.latency
  | .Descending =>
    match sort_by with
    | .Packets => cmpNat other.transmitted_packets self.transmitted_packets
    | .Bytes => cmpNat other.transmitted_bytes self.transmitted_bytes
    | .Latency => cmpOption cmpInt other.latency self.latency
  | .Neutral => cmpTimestamp other.final_timestamp self.final_timestamp

/-- Sample record A used by concrete witnesses (the source test's `pair1`). -/
def recA : InfoAddressPortPair :=
  { mac_address1 := none
    mac_address2 := none
    transmitted_bytes := 1000
    transmitted_packets := 10
    initial_timestamp := ⟨2, 100⟩
    final_timestamp := ⟨8, 1300⟩
    service := .Unknown
    traffic_direction := .Outgoing
    icmp_types := []
    arp_types := []
    latency := some 100
    syn_info := none }

/-- Sample record B used by concrete witnesses (the source test's `pair2`). -/
def recB : InfoAddressPortPair :=
  { mac_address1 := none
    mac_address2 := none
    transmitted_bytes := 1100
    transmitted_packets := 8
    initial_timestamp := ⟨3, 0⟩
    final_timestamp := ⟨15, 0⟩
    service := .Name ("https")
    traffic_direction := .Incoming
    icmp_types := []
    arp_types := []
    latency := some 200
    syn_info := some (⟨3, 0⟩, .Incoming) }

/-- Sample record with absent optional fields, used by concrete witnesses. -/
def recC : InfoAddressPortPair :=
  { recB with latency := none, syn_info := none }

/-- Raw network address (abstract identity standing for the source's `IpAddr`). -/
abbrev IpAddr := Nat

/-- Resolved host identity (abstract identity standing for the source's `Host`). -/
abbrev Host := Nat

/-- Modelled from the spec: the Connection Key, an address:port pair for the
two endpoints of a flow; its `AddressPortPair` struct is not among the
provided sources. Only `address1` / `address2` are consulted by the report
code. -/
structure AddressPortPair where
  address1 : IpAddr
  address2 : IpAddr
  port1 : Option Nat
  port2 : Option Nat
deriving DecidableEq, Inhabited, Repr

/-- Report entry from `src/report/types/report_entry.rs`: a Connection Key,
a Traffic Record snapshot, and the blacklist annotation. -/
structure ReportEntry where
  key : AddressPortPair
  val : InfoAddressPortPair
  is_blacklisted : Bool
deriving DecidableEq, Inhabited, Repr

/-- Modelled from the spec: the `DataInfo` aggregate, cumulative `u128`
packet/byte counts tracked separately for incoming and outgoing traffic;
its definition is not among the provided sources. -/
structure DataInfo where
  incoming_packets : Nat
  outgoing_packets : Nat
  incoming_bytes : Nat
  outgoing_bytes : Nat
deriving DecidableEq, Inhabited, Repr

/-- Modelled from the spec: `DataInfo::add_packets` folds one record's
packet and byte counts into the aggregate, split by traffic direction
(128-bit arithmetic). -/
def DataInfo.add_packets (self : DataInfo) (packets bytes : Nat)
    (dir : TrafficDirection) : DataInfo :=
  match dir with
  | .Incoming =>
    { self with
      incoming_packets := (self.incoming_packets + packets) % 2 ^ 128
      incoming_bytes := (self.incoming_bytes + bytes) % 2 ^ 128 }
  | .Outgoing =>
    { self with
      outgoing_packets := (self.outgoing_packets + packets) % 2 ^ 128
      outgoing_bytes := (self.outgoing_bytes + bytes) % 2 ^ 128 }

/-- Total packets of an aggregate (incoming plus outgoing, 128-bit). -/
def DataInfo.tot_packets (self : DataInfo) : Nat :=
  (self.incoming_packets + self.outgoing_packets) % 2 ^ 128

/-- Total bytes of an aggregate (incoming plus outgoing, 128-bit). -/
def DataInfo.tot_bytes (self : DataInfo) : Nat :=
  (self.incoming_bytes + self.outgoing_bytes) % 2 ^ 128

/-- Modelled from the spec: the aggregate's unit projection, same contract
as `InfoAddressPortPair::transmitted_data`. -/
def DataInfo.transmitted_data (self : DataInfo) (data_repr : DataRepr) : Nat :=
  match data_repr with
  | .Packets => self.tot_packets
  | .Bytes => self.tot_bytes
  | .Bits => self.tot_bytes * 8 % 2 ^ 128

/-- Modelled from the spec: the Aggregate Record comparator
(`DataInfo::compare`, not among the provided sources): Ascending and
Descending compare the volume in the requested unit; for Neutral the spec
leaves the fallback open and total volume descending is the choice taken
here. -/
def DataInfo.compare (self other : DataInfo) (sort_type : SortType)
    (data_repr : DataRepr) : Ordering :=
  match sort_type with
  | .Ascending => cmpNat (self.transmitted_data data_repr) (other.transmitted_data data_repr)
  | .Descending => cmpNat (other.transmitted_data data_repr) (self.transmitted_data data_repr)
  | .Neutral => cmpNat (other.transmitted_data data_repr) (self.transmitted_data data_repr)

/-- Modelled from the spec: the host aggregate `DataInfoHost`, a `DataInfo`
plus the favorite flag supplied by the resolution collaborator; its Rust
`Default` has `is_favorite = false`. -/
structure DataInfoHost where
  data_info : DataInfo
  is_favorite : Bool
deriving DecidableEq, Inhabited, Repr

/-- The live traffic state read by the report queries: the connection map
and the host and service aggregate tables (`InfoTraffic`); the maps are
association lists whose entry order models the hash maps' iteration
order. -/
structure InfoTraffic where
  map : List (AddressPortPair × InfoAddressPortPair)
  hosts : List (Host × DataInfoHost)
  services : List (Service × DataInfo)

/-- The query context of `get_searched_entries`: the traffic state plus the
collaborator capabilities (resolution index, search predicate, blacklist,
address-to-lookup rule) and the report settings carried by the source's
`Sniffer`. The collaborator functions are opaque parameters, as the spec
treats them. -/
structure Sniffer where
  info_traffic : InfoTraffic
  addresses_resolved : IpAddr → Option (String × Host)
  search : AddressPortPair → InfoAddressPortPair → Option (String × Host) → Bool → Bool
  blacklist : List IpAddr
  get_address_to_lookup : AddressPortPair → TrafficDirection → IpAddr
  report_sort_by : SortBy
  report_sort_type : SortType
  data_repr : DataRepr
  page_number : Nat

/-- Stable insertion of `x` into `l`: `x` goes before the first element it
does not compare greater than, matching a stable comparator sort. -/
def insertSorted (cmp : α → α → Ordering) (x : α) : List α → List α
  | [] => [x]
  | y :: ys => if cmp x y = Ordering.gt then y :: insertSorted cmp x ys else x :: y :: ys

/-- Stable sort by a three-way comparator, modelling `Vec::sort_by`. -/
def sortByCmp (cmp : α → α → Ordering) : List α → List α
  | [] => []
  | x :: xs => insertSorted cmp x (sortByCmp cmp xs)

/-- Rust slice indexing `xs.get(lo..hi).unwrap_or_default()`: the subslice
when `lo ≤ hi ≤ xs.len()`, the empty sequence otherwise. -/
def sliceGet (xs : List α) (lo hi : Nat) : List α :=
  if lo ≤ hi ∧ hi ≤ xs.length then (xs.drop lo).take (hi - lo) else []

/-- The `is_favorite` value computed inside `get_searched_entries`'s filter
closure: resolve the derived address, then read the favorite flag of the
resolved host in the host table, defaulting to `false` (`DataInfoHost`'s
default) when the host is missing, and to `false` when resolution fails. -/
def is_favorite_of (s : Sniffer) (key : AddressPortPair) (value : InfoAddressPortPair) : Bool :=
  match s.addresses_resolved (s.get_address_to_lookup key value.traffic_direction) with
  | some e => ((s.info_traffic.hosts.lookup e.2).getD default).is_favorite
  | none => false

/-- The filter predicate of `get_searched_entries`: the search matcher
applied to the key, the record, the resolution result, and the computed
favorite flag. -/
def matchesSearch (s : Sniffer) (kv : AddressPortPair × InfoAddressPortPair) : Bool :=
  s.search kv.1 kv.2
    (s.addresses_resolved (s.get_address_to_lookup kv.1 kv.2.traffic_direction))
    (is_favorite_of s kv.1 kv.2)

/-- The map step of `get_searched_entries`: materialize a `ReportEntry`,
flagging it blacklisted when either endpoint address is in the blacklist. -/
def mkReportEntry (s : Sniffer) (kv : AddressPortPair × InfoAddressPortPair) : ReportEntry :=
  { key := kv.1
    val := kv.2
    is_blacklisted :=
      s.blacklist.contains kv.1.address1 || s.blacklist.contains kv.1.address2 }

/-- The running `agglomerate` total of `get_searched_entries`: every
match's packets and bytes folded in, split by its traffic direction. -/
def agglomerateOf (s : Sniffer) : DataInfo :=
  (s.info_traffic.map.filter (matchesSearch s)).foldl
    (fun acc kv => acc.add_packets kv.2.transmitted_packets kv.2.transmitted_bytes
      kv.2.traffic_direction)
    default

/-- The `all_results` vector of `get_searched_entries`: every matching
(key, record) pair materialized and sorted with the Traffic Record
comparator under the configured sort settings. -/
def sortedMatches (s : Sniffer) : List ReportEntry :=
  sortByCmp
    (fun a b => a.val.compare b.val s.report_sort_by s.report_sort_type s.data_repr)
    ((s.info_traffic.map.filter (matchesSearch s)).map (mkReportEntry s))

/-- Embedding of `get_searched_entries` from `src/report/get_report_entries.rs`:
filter, annotate, sort, then return the page slice
`[(page_number - 1) * 20, min(page_number * 20, len))` (`Nat` subtraction is
the source's `saturating_sub`), the total match count, and the aggregate. -/
def get_searched_entries (s : Sniffer) : List ReportEntry × Nat × DataInfo :=
  (sliceGet (sortedMatches s) ((s.page_number - 1) * 20)
      (min (s.page_number * 20) (sortedMatches s).length),
    (sortedMatches s).length,
    agglomerateOf s)

/-- Embedding of `get_host_entries`: sort the host table with the Aggregate
Record comparator and keep the first `min(len, 30)` entries. -/
def get_host_entries (info_traffic : InfoTraffic) (data_repr : DataRepr)
    (sort_type : SortType) : List (Host × DataInfoHost) :=
  let sorted_vec := sortByCmp
    (fun a b => a.2.data_info.compare b.2.data_info sort_type data_repr)
    info_traffic.hosts
  sorted_vec.take (min sorted_vec.length 30)

/-- Embedding of `get_service_entries`: drop the "not applicable" sentinel,
sort the service table with the Aggregate Record comparator, and keep the
first `min(len, 30)` entries. -/
def get_service_entries (info_traffic : InfoTraffic) (data_repr : DataRepr)
    (sort_type : SortType) : List (Service × DataInfo) :=
  let sorted_vec := sortByCmp
    (fun a b => a.2.compare b.2 sort_type data_repr)
    (info_traffic.services.filter (fun p => decide (p.1 ≠ Service.NotApplicable)))
  sorted_vec.take (min sorted_vec.length 30)

/-- Sample Connection Key used by concrete witnesses. -/
def keyD : AddressPortPair :=
  { address1 := 1, address2 := 2, port1 := some 443, port2 := some 50000 }

/-- Sample query context used by concrete witnesses: one connection whose
first endpoint address is blacklisted, an always-true search predicate, and
page 1. -/
def sniffer0 : Sniffer :=
  { info_traffic := { map := [(keyD, recA)], hosts := [], services := [] }
    addresses_resolved := fun _ => none
    search := fun _ _ _ _ => true
    blacklist := [1]
    get_address_to_lookup := fun k _ => k.address1
    report_sort_by := .Packets
    report_sort_type := .Neutral
    data_repr := .Bytes
    page_number := 1 }

/-- Sample query context on page 2 of a single-match result, used to
witness the out-of-range-page case. -/
def sniffer1 : Sniffer :=
  { sniffer0 with page_number := 2 }

theorem cmpNat_swap (a b : Nat) : (cmpNat a b).swap = cmpNat b a := by
  unfold cmpNat
  rcases Nat.lt_trichotomy a b with h | h | h
  · simp [h, Nat.lt_asymm h, Ordering.swap]
  · simp [h, Nat.lt_irrefl, Ordering.swap]
  · simp [h, Nat.lt_asymm h, Nat.lt_asymm, Ordering.swap]

theorem cmpInt_swap (a b : Int) : (cmpInt a b).swap = cmpInt b a := by
  unfold cmpInt
  rcases Int.lt_trichotomy a b with h | h | h
  · simp [h, not_lt_of_gt h, Ordering.swap]
  · simp [h, lt_irrefl, Ordering.swap]
  · simp [h, not_lt_of_gt h, Ordering.swap]

theorem cmpOption_swap (c : α → α → Ordering) (hc : ∀ x y, (c x y).swap = c y x)
    (o₁ o₂ : Option α) : (cmpOption c o₁ o₂).swap = cmpOption c o₂ o₁ := by
  cases o₁ <;> cases o₂ <;> first | rfl | exact hc _ _

theorem cmpTimestamp_swap (a b : Timestamp) : (cmpTimestamp a b).swap = cmpTimestamp b a := by
  unfold cmpTimestamp
  rw [← cmpInt_swap a.secs b.secs, ← cmpInt_swap a.usecs b.usecs]
  cases cmpInt a.secs b.secs <;> rfl

/-- C1. Merge is additive and preserves the origin timestamp: whenever the
byte and packet sums fit in 128 bits (the `u128` domain of the counters),
`refresh` yields exactly the sums, leaves `initial_timestamp` untouched,
and sets `final_timestamp` to the delta's value. -/
theorem refresh_additive_preserves_origin (A B : InfoAddressPortPair)
    (hb : A.transmitted_bytes + B.transmitted_bytes < 2 ^ 128)
    (hp : A.transmitted_packets + B.transmitted_packets < 2 ^ 128) :
    (A.refresh B).transmitted_bytes = A.transmitted_bytes + B.transmitted_bytes ∧
    (A.refresh B).transmitted_packets = A.transmitted_packets + B.transmitted_packets ∧
    (A.refresh B).initial_timestamp = A.initial_timestamp ∧
    (A.refresh B).final_timestamp = B.final_timestamp := by
  refine ⟨?_, ?_, rfl, rfl⟩
  · simp only [InfoAddressPortPair.refresh]
    exact Nat.mod_eq_of_lt hb
  · simp only [InfoAddressPortPair.refresh]
    exact Nat.mod_eq_of_lt hp

/-- Witness for C1 at the source test's two sample records. -/
theorem refresh_additive_preserves_origin_witness :
    (recA.transmitted_bytes + recB.transmitted_bytes < 2 ^ 128 ∧
      recA.transmitted_packets + recB.transmitted_packets < 2 ^ 128) ∧
    ((recA.refresh recB).transmitted_bytes = recA.transmitted_bytes + recB.transmitted_bytes ∧
      (recA.refresh recB).transmitted_packets =
        recA.transmitted_packets + recB.transmitted_packets ∧
      (recA.refresh recB).initial_timestamp = recA.initial_timestamp ∧
      (recA.refresh recB).final_timestamp = recB.final_timestamp) :=
  ⟨⟨by decide, by decide⟩,
    refresh_additive_preserves_origin recA recB (by decide) (by decide)⟩

/-- C5. Merge applies last-known-value-wins to `latency` and `syn_info`: an
absent incoming value preserves the prior one, a present incoming value
replaces it. -/
theorem refresh_optional_last_write_wins (A B : InfoAddressPortPair) :
    (B.latency = none → (A.refresh B).latency = A.latency) ∧
    (B.latency.isSome = true → (A.refresh B).latency = B.latency) ∧
    (B.syn_info = none → (A.refresh B).syn_info = A.syn_info) ∧
    (B.syn_info.isSome = true → (A.refresh B).syn_info = B.syn_info) := by
  refine ⟨fun h => ?_, fun h => ?_, fun h => ?_, fun h => ?_⟩ <;>
    simp [InfoAddressPortPair.refresh, h]

/-- Witness for C5: an absent delta latency preserves record A's latency, a
present one overwrites it; same for `syn_info`. -/
theorem refresh_optional_last_write_wins_witness :
    (recC.latency = none ∧ (recA.refresh recC).latency = recA.latency) ∧
    (recB.latency.isSome = true ∧ (recA.refresh recB).latency = recB.latency) ∧
    (recC.syn_info = none ∧ (recA.refresh recC).syn_info = recA.syn_info) ∧
    (recB.syn_info.isSome = true ∧ (recA.refresh recB).syn_info = recB.syn_info) :=
  ⟨⟨rfl, (refresh_optional_last_write_wins recA recC).1 rfl⟩,
    ⟨rfl, (refresh_optional_last_write_wins recA recB).2.1 rfl⟩,
    ⟨rfl, (refresh_optional_last_write_wins recA recC).2.2.1 rfl⟩,
    ⟨rfl, (refresh_optional_last_write_wins recA recB).2.2.2 rfl⟩⟩

/-- C9. Unit projection is consistent: bits are bytes times 8 in 128-bit
arithmetic, and the packet and byte projections return the raw counters. -/
theorem transmitted_data_consistent (r : InfoAddressPortPair) :
    r.transmitted_data .Bits = r.transmitted_data .Bytes * 8 % 2 ^ 128 ∧
    r.transmitted_data .Packets = r.transmitted_packets ∧
    r.transmitted_data .Bytes = r.transmitted_bytes :=
  ⟨rfl, rfl, rfl⟩

/-- C3. The comparator is antisymmetric and total: swapping the two records
inverts the resulting ordering, for every sort key, direction, and unit. -/
theorem compare_antisymmetric (A B : InfoAddressPortPair)
    (k : SortBy) (d : SortType) (u : DataRepr) :
    InfoAddressPortPair.compare A B k d u =
      (InfoAddressPortPair.compare B A k d u).swap := by
  cases d <;> cases k <;>
    simp [InfoAddressPortPair.compare, cmpNat_swap, cmpTimestamp_swap,
      cmpOption_swap cmpInt cmpInt_swap]

/-- C10. The comparator never consults its unit-representation argument:
any two units give the same ordering. -/
theorem compare_ignores_data_repr (A B : InfoAddressPortPair)
    (k : SortBy) (d : SortType) (u₁ u₂ : DataRepr) :
    InfoAddressPortPair.compare A B k d u₁ = InfoAddressPortPair.compare A B k d u₂ := rfl

/-- C4. Under Neutral the comparator ignores the sort key and orders by
final timestamp descending: Packets and Latency agree (in particular when
the final timestamps differ), and the result is the comparison of the two
final timestamps with operands reversed. -/
theorem compare_neutral_recency (A B : InfoAddressPortPair) (k : SortBy) (u : DataRepr) :
    (A.final_timestamp ≠ B.final_timestamp →
      InfoAddressPortPair.compare A B .Packets .Neutral u =
        InfoAddressPortPair.compare A B .Latency .Neutral u) ∧
    InfoAddressPortPair.compare A B k .Neutral u =
      cmpTimestamp B.final_timestamp A.final_timestamp :=
  ⟨fun _ => rfl, rfl⟩

/-- Witness for C4 at two records with distinct final timestamps. -/
theorem compare_neutral_recency_witness :
    recA.final_timestamp ≠ recB.final_timestamp ∧
    InfoAddressPortPair.compare recA recB .Packets .Neutral .Bytes =
      InfoAddressPortPair.compare recA recB .Latency .Neutral .Bytes :=
  ⟨by decide, (compare_neutral_recency recA recB .Packets .Bytes).1 (by decide)⟩

theorem length_insertSorted (cmp : α → α → Ordering) (x : α) (l : List α) :
    (insertSorted cmp x l).length = l.length + 1 := by
  induction l with
  | nil => rfl
  | cons y ys ih =>
    simp only [insertSorted]
    split <;> simp [ih]

theorem length_sortByCmp (cmp : α → α → Ordering) (l : List α) :
    (sortByCmp cmp l).length = l.length := by
  induction l with
  | nil => rfl
  | cons x xs ih => simp [sortByCmp, length_insertSorted, ih]

theorem mem_insertSorted {cmp : α → α → Ordering} {x y : α} {l : List α} :
    y ∈ insertSorted cmp x l ↔ y = x ∨ y ∈ l := by
  induction l with
  | nil => simp [insertSorted]
  | cons z zs ih =>
    simp only [insertSorted]
    split
    · simp only [List.mem_cons, ih]
      tauto
    · simp [List.mem_cons]

theorem mem_sortByCmp {cmp : α → α → Ordering} {y : α} {l : List α} :
    y ∈ sortByCmp cmp l ↔ y ∈ l := by
  induction l with
  | nil => simp [sortByCmp]
  | cons x xs ih => simp [sortByCmp, mem_insertSorted, ih]

theorem sliceGet_eq (xs : List α) (lo hi : Nat) (h : hi ≤ xs.length) :
    sliceGet xs lo hi = (xs.drop lo).take (hi - lo) := by
  unfold sliceGet
  split
  · rfl
  · rename_i h'
    have hlo : ¬ lo ≤ hi := fun hle => h' ⟨hle, h⟩
    have : hi - lo = 0 := Nat.sub_eq_zero_of_le (Nat.le_of_lt (Nat.not_le.mp hlo))
    simp [this]

/-- C2. Pagination of `get_searched_entries`: the first output is the slice
`[start, end)` of the full sorted matched set with
`start = (page_number - 1) * 20` (saturating, so page 0 also starts at 0)
and `end = min(page_number * 20, total)`; a start at or past the total
yields the empty slice; at most 20 entries are returned; and the second
output is the total match count before pagination. -/
theorem query_pagination (s : Sniffer) :
    (get_searched_entries s).1 =
      ((sortedMatches s).drop ((s.page_number - 1) * 20)).take
        (min (s.page_number * 20) (sortedMatches s).length - (s.page_number - 1) * 20) ∧
    ((sortedMatches s).length ≤ (s.page_number - 1) * 20 →
      (get_searched_entries s).1 = []) ∧
    (get_searched_entries s).1.length ≤ 20 ∧
    (get_searched_entries s).2.1 = (s.info_traffic.map.filter (matchesSearch s)).length := by
  have hslice : (get_searched_entries s).1 =
      ((sortedMatches s).drop ((s.page_number - 1) * 20)).take
        (min (s.page_number * 20) (sortedMatches s).length - (s.page_number - 1) * 20) :=
    sliceGet_eq _ _ _ (Nat.min_le_right _ _)
  refine ⟨hslice, ?_, ?_, ?_⟩
  · intro h
    rw [hslice, List.drop_eq_nil_of_le h, List.take_nil]
  · rw [hslice]
    simp only [List.length_take, List.length_drop]
    have h1 := Nat.min_le_left (s.page_number * 20) (sortedMatches s).length
    omega
  · show (sortedMatches s).length = _
    simp [sortedMatches, length_sortByCmp]

/-- Witness for C2: on page 2 of a one-match result the start index is past
the total, and the returned slice is empty. -/
theorem query_pagination_witness :
    (sortedMatches sniffer1).length ≤ (sniffer1.page_number - 1) * 20 ∧
    (get_searched_entries sniffer1).1 = [] :=
  ⟨by decide, (query_pagination sniffer1).2.1 (by decide)⟩

/-- C6. Every entry produced by `get_searched_entries` is flagged
blacklisted exactly when at least one of its two endpoint addresses is in
the blacklist. -/
theorem blacklisted_flag (s : Sniffer) (e : ReportEntry)
    (he : e ∈ (get_searched_entries s).1) :
    e.is_blacklisted = true ↔
      e.key.address1 ∈ s.blacklist ∨ e.key.address2 ∈ s.blacklist := by
  have h1 : e ∈ sortedMatches s := by
    have h2 := he
    unfold get_searched_entries sliceGet at h2
    split at h2
    · exact List.drop_subset _ _ (List.take_subset _ _ h2)
    · simp at h2
  have h3 : e ∈ (s.info_traffic.map.filter (matchesSearch s)).map (mkReportEntry s) :=
    (mem_sortByCmp (l := (s.info_traffic.map.filter (matchesSearch s)).map
      (mkReportEntry s))).mp h1
  obtain ⟨kv, _, hkv⟩ := List.mem_map.mp h3
  subst hkv
  simp [mkReportEntry, List.elem_iff]

/-- Witness for C6: the single produced entry of the sample context is
flagged, and its first endpoint address is blacklisted. -/
theorem blacklisted_flag_witness :
    (⟨keyD, recA, true⟩ : ReportEntry) ∈ (get_searched_entries sniffer0).1 ∧
    ((⟨keyD, recA, true⟩ : ReportEntry).is_blacklisted = true ↔
      (⟨keyD, recA, true⟩ : ReportEntry).key.address1 ∈ sniffer0.blacklist ∨
        (⟨keyD, recA, true⟩ : ReportEntry).key.address2 ∈ sniffer0.blacklist) :=
  ⟨by decide, blacklisted_flag sniffer0 ⟨keyD, recA, true⟩ (by decide)⟩

/-- C7. The favorite flag handed to the search predicate: the filter
applies the predicate to exactly `is_favorite_of`, which is true precisely
when resolution of the derived address succeeds and the resolved host is
present in the host table with its favorite flag set; it is false when
resolution fails or the host is missing. -/
theorem favorite_flag (s : Sniffer) (key : AddressPortPair) (value : InfoAddressPortPair) :
    matchesSearch s (key, value) =
      s.search key value
        (s.addresses_resolved (s.get_address_to_lookup key value.traffic_direction))
        (is_favorite_of s key value) ∧
    (is_favorite_of s key value = true ↔
      ∃ e, s.addresses_resolved (s.get_address_to_lookup key value.traffic_direction) =
          some e ∧
        ∃ d, s.info_traffic.hosts.lookup e.2 = some d ∧ d.is_favorite = true) := by
  refine ⟨rfl, ?_⟩
  unfold is_favorite_of
  cases hres : s.addresses_resolved (s.get_address_to_lookup key value.traffic_direction) with
  | none => simp
  | some e =>
    cases hl : s.info_traffic.hosts.lookup e.2 with
    | none =>
      simp [hl, show (default : DataInfoHost).is_favorite = false from rfl]
    | some d => simp [hl]

/-- C8. The Top-N view builders cap their output at 30 entries, the service
view excludes the "not applicable" sentinel, and empty tables yield empty
views. -/
theorem top_n_cap (it : InfoTraffic) (u : DataRepr) (d : SortType) :
    (get_host_entries it u d).length ≤ 30 ∧
    (get_service_entries it u d).length ≤ 30 ∧
    (∀ e ∈ get_service_entries it u d, e.1 ≠ Service.NotApplicable) ∧
    (it.hosts = [] → get_host_entries it u d = []) ∧
    (it.services = [] → get_service_entries it u d = []) := by
  have cap_hosts : (get_host_entries it u d).length ≤ 30 := by
    simp only [get_host_entries, List.length_take]
    omega
  have cap_services : (get_service_entries it u d).length ≤ 30 := by
    simp only [get_service_entries, List.length_take]
    omega
  have no_sentinel : ∀ e ∈ get_service_entries it u d, e.1 ≠ Service.NotApplicable := by
    intro e he
    simp only [get_service_entries] at he
    have h1 := (mem_sortByCmp).mp (List.take_subset _ _ he)
    have h2 := (List.mem_filter.mp h1).2
    exact of_decide_eq_true h2
  have hosts_nil : it.hosts = [] → get_host_entries it u d = [] := by
    intro h
    simp [get_host_entries, h, sortByCmp]
  have services_nil : it.services = [] → get_service_entries it u d = [] := by
    intro h
    simp [get_service_entries, h, sortByCmp]
  exact ⟨cap_hosts, cap_services, no_sentinel, hosts_nil, services_nil⟩

/-- Witness for C8 at the sample context's empty host and service tables. -/
theorem top_n_cap_witness :
    (sniffer0.info_traffic.hosts = [] ∧
      get_host_entries sniffer0.info_traffic .Bytes .Neutral = []) ∧
    (sniffer0.info_traffic.services = [] ∧
      get_service_entries sniffer0.info_traffic .Bytes .Neutral = []) :=
  ⟨⟨rfl, (top_n_cap sniffer0.info_traffic .Bytes .Neutral).2.2.2.1 rfl⟩,
    ⟨rfl, (top_n_cap sniffer0.info_traffic .Bytes .Neutral).2.2.2.2 rfl⟩⟩
